import Mathlib

/-
  Verification of the curation-maker harvesting and keyword-filtering
  engine.  The data model and operations below are a shallow embedding
  of the Python sources curation_maker_fast.py and curation_maker_html.py:
  strings are lists of characters, network effects are oracles mapping
  attempt or page indices to outcomes, and sleep calls are recorded as
  durations in milliseconds.
-/

/-- A harvested product record, as built by scrape_single_product:
the dict with keys mp_code, searchable_text, title, brand. -/
structure HarvestResult where
  mp_code : List Char
  searchable_text : List Char
  title : List Char
  brand : List Char
deriving Repr, DecidableEq

/-- An entry of the all_products list built during catalog discovery:
the dict with keys mp_code, url, title, brand. -/
structure ItemDescriptor where
  mp_code : List Char
  url : List Char
  title : List Char
  brand : List Char
deriving Repr, DecidableEq

/-- Outcome of one network GET for a product page: either the request
raises (timeout, transport failure) or it returns a status code and a body. -/
inductive AttemptOutcome (Body : Type) where
  | transportError
  | response (status : Nat) (body : Body)
deriving Repr, DecidableEq

/-- Lowercasing of a text, modelling Python str.lower on the characters. -/
def toLowerText (s : List Char) : List Char := s.map Char.toLower

/-- Joining of the searchable parts, modelling
the join of all non-empty parts with single spaces. -/
def joinParts (parts : List (List Char)) : List Char :=
  List.intercalate [' '] (parts.filter (fun p => !p.isEmpty))

/-- The searchable text assembled by scrape_single_product: title and brand
from the descriptor followed by the parts the content extractor pulled from
the page, joined and lowercased. -/
def searchableTextOf (item : ItemDescriptor) (parts : List (List Char)) : List Char :=
  toLowerText (joinParts (item.title :: item.brand :: parts))

/-- The dict returned by scrape_single_product on success. -/
def mkHarvestResult (item : ItemDescriptor) (parts : List (List Char)) : HarvestResult :=
  { mp_code := item.mp_code
    searchable_text := searchableTextOf item parts
    title := item.title
    brand := item.brand }

/-- How one attempt of the retry loop in scrape_single_product ends:
either a HarvestResult is produced (status 200 and extraction succeeded),
or the attempt failed inside the try block (transport error or extraction
exception, which the except branch retries after a one-second pause), or
the status check failed (retried with no extra pause). -/
inductive AttemptClass where
  | produced (r : HarvestResult)
  | retryWithPause
  | retryNoPause
deriving Repr, DecidableEq

/-- Classification of a single attempt of scrape_single_product.  A raised
request is caught by the except branch; on a response the status is checked
against 200 before any extraction happens; extraction of a 200 body either
yields the parts of the searchable text or raises, and a raise lands in the
same except branch as a transport error. -/
def classifyAttempt {Body : Type} (extract : Body → Except Unit (List (List Char)))
    (item : ItemDescriptor) (out : AttemptOutcome Body) : AttemptClass :=
  match out with
  | .transportError => .retryWithPause
  | .response status body =>
    if status = 200 then
      match extract body with
      | .ok parts => .produced (mkHarvestResult item parts)
      | .error _ => .retryWithPause
    else .retryNoPause

/-- The extra sleep performed by the except branch before a retry
(one second, recorded as 1000 ms); a plain status failure retries
with no extra sleep. -/
def pauseOf : AttemptClass → List Nat
  | .retryWithPause => [1000]
  | _ => []

/-- The result of the retry loop of scrape_single_product, unrolled over
its three attempts (for attempt in range 3): the first attempt that
produces a HarvestResult wins; a failed attempt continues while
attempt < 2, and the loop returns no result when the last attempt also
fails. -/
def scrapeResultLoop {Body : Type} (extract : Body → Except Unit (List (List Char)))
    (item : ItemDescriptor) (oracle : Nat → AttemptOutcome Body) :
    Option HarvestResult :=
  match classifyAttempt extract item (oracle 0) with
  | .produced r => some r
  | _ =>
    match classifyAttempt extract item (oracle 1) with
    | .produced r => some r
    | _ =>
      match classifyAttempt extract item (oracle 2) with
      | .produced r => some r
      | _ => none

/-- The sleeps of the retry loop of scrape_single_product, in ms, in
order: attempt a first sleeps its linear backoff of 200 * a ms; an attempt
that fails inside the try block additionally sleeps 1000 ms before the
next attempt; the loop ends with the attempt that produces a result or
with the last attempt. -/
def scrapeSleepsLoop {Body : Type} (extract : Body → Except Unit (List (List Char)))
    (item : ItemDescriptor) (oracle : Nat → AttemptOutcome Body) : List Nat :=
  match classifyAttempt extract item (oracle 0) with
  | .produced _ => [0]
  | c0 =>
    match classifyAttempt extract item (oracle 1) with
    | .produced _ => [0] ++ pauseOf c0 ++ [200]
    | c1 => [0] ++ pauseOf c0 ++ [200] ++ pauseOf c1 ++ [400]

/-- scrape_single_product: the optional HarvestResult of the retry loop. -/
def scrape_single_product {Body : Type} (extract : Body → Except Unit (List (List Char)))
    (item : ItemDescriptor) (oracle : Nat → AttemptOutcome Body) : Option HarvestResult :=
  scrapeResultLoop extract item oracle

/-- The sequence of sleeps performed by scrape_single_product, in ms:
the initial fixed 300 ms delay followed by the sleeps of the retry loop. -/
def scrape_single_sleeps {Body : Type} (extract : Body → Except Unit (List (List Char)))
    (item : ItemDescriptor) (oracle : Nat → AttemptOutcome Body) : List Nat :=
  300 :: scrapeSleepsLoop extract item oracle

/-- scrape_products_batch: one task per product in listing order, gathered
in task order, with failed tasks (None or an exception) filtered out. -/
def scrape_products_batch {Body : Type} (extract : Body → Except Unit (List (List Char)))
    (oracle : ItemDescriptor → Nat → AttemptOutcome Body)
    (products : List ItemDescriptor) : List HarvestResult :=
  (products.map (fun p => scrape_single_product extract p (oracle p))).filterMap id

/-- filter_by_keywords: lowercase the keywords, then walk the corpus
appending the mp_code of every product whose searchable_text contains at
least one lowercased keyword as a substring. -/
def filter_by_keywords (products_data : List HarvestResult)
    (keywords : List (List Char)) : List (List Char) :=
  let keywords_lower := keywords.map toLowerText
  products_data.foldl (fun acc product =>
    let matched := keywords_lower.filter (fun kw => decide (kw <:+: product.searchable_text))
    if matched.isEmpty then acc else acc ++ [product.mp_code]) []

/-- The matching predicate of the keyword filter, stated directly from the
specification: some lowercased keyword of the group is a substring of the
normalized text of the result. -/
def groupMatches (keywords : List (List Char)) (r : HarvestResult) : Bool :=
  (keywords.map toLowerText).any (fun kw => decide (kw <:+: r.searchable_text))

/-- A raw record of the searchresult array of one catalog page. -/
structure RawProduct where
  productId : List Char
  webURL : List Char
  productname : List Char
  brandname : List Char
deriving Repr, DecidableEq

/-- Outcome of one catalog page request: either the request raises or it
returns a status code and the searchresult array of the decoded JSON. -/
inductive PageOutcome where
  | transportError
  | response (status : Nat) (searchresult : List RawProduct)
deriving Repr, DecidableEq

/-- The all_products entry built from a raw record: the web URL is made
absolute when it does not already start with http. -/
def buildEntry (p : RawProduct) : ItemDescriptor :=
  { mp_code := p.productId
    url := if "http".data.isPrefixOf p.webURL then p.webURL
           else "https://luxury.tatacliq.com".data ++ p.webURL
    title := p.productname
    brand := p.brandname }

/-- The entries one catalog page contributes: every record whose productId
is non-empty, in page order. -/
def collectPage (products : List RawProduct) : List ItemDescriptor :=
  products.filterMap (fun p => if p.productId.isEmpty then none else some (buildEntry p))

/-- The catalog discovery loop (while page < 500) of
scrape_all_products_async.  fuel is the number of loop iterations still
allowed, page the next page index, acc the products collected so far and
reqs the page requests made so far.  A raised request, a non-200 status, an
empty page, or a short page (fewer than 24 records) stops the loop, keeping
everything collected so far; otherwise the loop continues with the next
page.  Returns the collected products and the total number of requests. -/
def catalogLoop (oracle : Nat → PageOutcome) :
    Nat → Nat → List ItemDescriptor → Nat → List ItemDescriptor × Nat
  | 0, _, acc, reqs => (acc, reqs)
  | fuel + 1, page, acc, reqs =>
    match oracle page with
    | .transportError => (acc, reqs + 1)
    | .response status products =>
      if status = 200 then
        if products.isEmpty then (acc, reqs + 1)
        else
          let acc2 := acc ++ collectPage products
          if products.length < 24 then (acc2, reqs + 1)
          else catalogLoop oracle fuel (page + 1) acc2 (reqs + 1)
      else (acc, reqs + 1)

/-- Catalog discovery as run by scrape_all_products_async: pages from page
0 under the hard ceiling of 500 pages, returning the collected product
descriptors and the number of page requests made. -/
def scrape_all_products_pages (oracle : Nat → PageOutcome) : List ItemDescriptor × Nat :=
  catalogLoop oracle 500 0 [] 0

/-- The stop conditions of catalog discovery named by the specification:
the page request raised, or returned a non-success status, or yielded zero
records, or yielded a short page. -/
def pageStops (out : PageOutcome) : Prop :=
  match out with
  | .transportError => True
  | .response status products =>
      status ≠ 200 ∨ products.isEmpty = true ∨ products.length < 24

instance : DecidablePred pageStops := by
  intro out
  cases out with
  | transportError => exact isTrue trivial
  | response status products =>
      simp only [pageStops]
      infer_instance

/-- A fetch-level failure of one attempt: the request raised, or the
response carried a non-success status. -/
def fetchFailed {Body : Type} : AttemptOutcome Body → Bool
  | .transportError => true
  | .response status _ => decide (status ≠ 200)

/-- A filtered list is non-empty exactly when some element satisfies the
predicate. -/
lemma filter_nonempty_eq_any {α : Type} (p : α → Bool) :
    ∀ l : List α, (!(l.filter p).isEmpty) = l.any p := by
  intro l
  induction l with
  | nil => rfl
  | cons a l ih =>
    cases hpa : p a <;> simp [List.filter_cons, hpa, ← ih]

/-- The accumulator form of the keyword-filter loop collects exactly the
ids of the matching corpus entries, in corpus order. -/
lemma filter_foldl_general (kws : List (List Char)) :
    ∀ (c : List HarvestResult) (acc : List (List Char)),
      c.foldl (fun acc product =>
        if ((kws.map toLowerText).filter
            (fun kw => decide (kw <:+: product.searchable_text))).isEmpty then acc
        else acc ++ [product.mp_code]) acc
      = acc ++ (c.filter (groupMatches kws)).map (fun r => r.mp_code) := by
  intro c
  induction c with
  | nil => intro acc; simp
  | cons p c ih =>
    intro acc
    have h := filter_nonempty_eq_any
      (fun kw => decide (kw <:+: p.searchable_text)) (kws.map toLowerText)
    simp only [List.foldl_cons, List.filter_cons]
    cases hm : (kws.map toLowerText).any (fun kw => decide (kw <:+: p.searchable_text))
    · rw [hm] at h
      simp only [Bool.not_eq_false'] at h
      rw [h, if_pos rfl]
      have hg : groupMatches kws p = false := hm
      simp only [hg, Bool.false_eq_true, if_neg, ite_false]
      exact ih acc
    · rw [hm] at h
      simp only [Bool.not_eq_true'] at h
      rw [h]
      simp only [Bool.false_eq_true, if_neg, ite_false]
      have hg : groupMatches kws p = true := hm
      simp only [hg, ite_true]
      rw [ih (acc ++ [p.mp_code])]
      simp [List.append_assoc]

/-- Closed form of filter_by_keywords: the mp_codes of the corpus entries
matched by the group, in corpus order. -/
lemma filter_by_keywords_eq (c : List HarvestResult) (kws : List (List Char)) :
    filter_by_keywords c kws
      = (c.filter (groupMatches kws)).map (fun r => r.mp_code) := by
  have h := filter_foldl_general kws c []
  simpa [filter_by_keywords] using h

/-- Lowercasing preserves substring containment. -/
lemma mapToLower_mono {a b : List Char} (h : a <:+: b) :
    toLowerText a <:+: toLowerText b := by
  obtain ⟨s, t, rfl⟩ := h
  exact ⟨s.map Char.toLower, t.map Char.toLower, by simp [toLowerText]⟩

/-- Whether an attempt classification is a retry (no result produced). -/
def isRetry : AttemptClass → Bool
  | .produced _ => false
  | _ => true

/-- A produced HarvestResult always carries the id of its descriptor. -/
lemma classify_produced_id {Body : Type} {extract : Body → Except Unit (List (List Char))}
    {item : ItemDescriptor} {out : AttemptOutcome Body} {r : HarvestResult}
    (h : classifyAttempt extract item out = .produced r) : r.mp_code = item.mp_code := by
  cases out with
  | transportError => simp [classifyAttempt] at h
  | response status body =>
    by_cases hs : status = 200
    · cases hx : extract body with
      | ok parts =>
        simp only [classifyAttempt, hs, if_true, hx, AttemptClass.produced.injEq] at h
        rw [← h]
        rfl
      | error e => simp [classifyAttempt, hs, hx] at h
    · simp [classifyAttempt, hs] at h

/-- A fetch-level failure never reaches extraction: the attempt is
classified as a retry. -/
lemma classify_retry_of_fetchFailed {Body : Type}
    {extract : Body → Except Unit (List (List Char))} {item : ItemDescriptor}
    {out : AttemptOutcome Body} (h : fetchFailed out = true) :
    isRetry (classifyAttempt extract item out) = true := by
  cases out with
  | transportError => rfl
  | response status body =>
    have hs : status ≠ 200 := by simpa [fetchFailed] using h
    simp [classifyAttempt, hs, isRetry]

/-- The retry loop only ever returns a result built from its own
descriptor. -/
lemma scrapeResultLoop_some_id {Body : Type}
    {extract : Body → Except Unit (List (List Char))} {item : ItemDescriptor}
    {oracle : Nat → AttemptOutcome Body} {r : HarvestResult}
    (h : scrapeResultLoop extract item oracle = some r) : r.mp_code = item.mp_code := by
  unfold scrapeResultLoop at h
  cases h0 : classifyAttempt extract item (oracle 0) <;> rw [h0] at h
  case produced r0 =>
    simp only [Option.some.injEq] at h
    exact h ▸ classify_produced_id h0
  all_goals (
    simp only [] at h
    cases h1 : classifyAttempt extract item (oracle 1) <;> rw [h1] at h
    case produced r1 =>
      simp only [Option.some.injEq] at h
      exact h ▸ classify_produced_id h1
    all_goals (
      simp only [] at h
      cases h2 : classifyAttempt extract item (oracle 2) <;> rw [h2] at h
      case produced r2 =>
        simp only [Option.some.injEq] at h
        exact h ▸ classify_produced_id h2
      all_goals simp at h))

/-- When all three attempts are classified as retries the loop returns no
result. -/
lemma scrapeResultLoop_none {Body : Type}
    {extract : Body → Except Unit (List (List Char))} {item : ItemDescriptor}
    {oracle : Nat → AttemptOutcome Body}
    (h0 : isRetry (classifyAttempt extract item (oracle 0)) = true)
    (h1 : isRetry (classifyAttempt extract item (oracle 1)) = true)
    (h2 : isRetry (classifyAttempt extract item (oracle 2)) = true) :
    scrapeResultLoop extract item oracle = none := by
  unfold scrapeResultLoop
  cases hc0 : classifyAttempt extract item (oracle 0)
  case produced r0 => rw [hc0] at h0; simp [isRetry] at h0
  all_goals (
    cases hc1 : classifyAttempt extract item (oracle 1)
    case produced r1 => rw [hc1] at h1; simp [isRetry] at h1
    all_goals (
      cases hc2 : classifyAttempt extract item (oracle 2)
      case produced r2 => rw [hc2] at h2; simp [isRetry] at h2
      all_goals rfl))

/-- Unfolding of the batch over the head product. -/
lemma batch_cons {Body : Type} (extract : Body → Except Unit (List (List Char)))
    (oracle : ItemDescriptor → Nat → AttemptOutcome Body)
    (p : ItemDescriptor) (ps : List ItemDescriptor) :
    scrape_products_batch extract oracle (p :: ps)
      = (match scrape_single_product extract p (oracle p) with
         | some r => r :: scrape_products_batch extract oracle ps
         | none => scrape_products_batch extract oracle ps) := by
  simp only [scrape_products_batch, List.map_cons, List.filterMap_cons]
  cases scrape_single_product extract p (oracle p) <;> rfl

/-- The ids of the harvested corpus form an order-preserving selection of
the ids of the input products. -/
lemma batch_map_sublist {Body : Type} (extract : Body → Except Unit (List (List Char)))
    (oracle : ItemDescriptor → Nat → AttemptOutcome Body) :
    ∀ products : List ItemDescriptor,
      ((scrape_products_batch extract oracle products).map (fun r => r.mp_code)).Sublist
        (products.map (fun p => p.mp_code)) := by
  intro products
  induction products with
  | nil => simp [scrape_products_batch]
  | cons p ps ih =>
    rw [batch_cons]
    cases hp : scrape_single_product extract p (oracle p) with
    | none =>
      exact ih.cons p.mp_code
    | some r =>
      have hid : r.mp_code = p.mp_code := scrapeResultLoop_some_id hp
      simp only [List.map_cons, hid]
      exact ih.cons₂ p.mp_code

/-- Request-count specification of the catalog loop, for calls where the
request counter equals the starting page: the loop makes at most fuel
further requests, no page strictly before the last requested one satisfied
a stop condition, and the loop either exhausts its fuel or its last
requested page satisfied a stop condition. -/
lemma catalogLoop_spec (oracle : Nat → PageOutcome) :
    ∀ (fuel page : Nat) (acc : List ItemDescriptor),
      (catalogLoop oracle fuel page acc page).snd ≤ page + fuel
      ∧ (∀ k, page ≤ k → k + 1 < (catalogLoop oracle fuel page acc page).snd →
          ¬ pageStops (oracle k))
      ∧ ((catalogLoop oracle fuel page acc page).snd = page + fuel
         ∨ (page < (catalogLoop oracle fuel page acc page).snd
            ∧ pageStops (oracle ((catalogLoop oracle fuel page acc page).snd - 1)))) := by
  intro fuel
  induction fuel with
  | zero =>
    intro page acc
    refine ⟨Nat.le_refl _, ?_, Or.inl rfl⟩
    intro k hk hk2
    simp only [catalogLoop] at hk2
    omega
  | succ fuel ih =>
    intro page acc
    cases ho : oracle page with
    | transportError =>
      have hp : pageStops (oracle page) := by rw [ho]; trivial
      simp only [catalogLoop, ho]
      exact ⟨by omega, fun k hk hk2 => absurd hk2 (by omega),
        Or.inr ⟨by omega, by simpa using hp⟩⟩
    | response status products =>
      by_cases hs : status = 200
      · cases he : products.isEmpty with
        | true =>
          have hp : pageStops (oracle page) := by
            rw [ho]; exact Or.inr (Or.inl he)
          simp only [catalogLoop, ho, hs, if_true, he]
          exact ⟨by omega, fun k hk hk2 => absurd hk2 (by omega),
            Or.inr ⟨by omega, by simpa using hp⟩⟩
        | false =>
          by_cases hl : products.length < 24
          · have hp : pageStops (oracle page) := by
              rw [ho]; exact Or.inr (Or.inr hl)
            simp only [catalogLoop, ho, hs, if_true, he, Bool.false_eq_true,
              if_false, hl]
            exact ⟨by omega, fun k hk hk2 => absurd hk2 (by omega),
              Or.inr ⟨by omega, by simpa using hp⟩⟩
          · have hnp : ¬ pageStops (oracle page) := by
              rw [ho]
              simp only [pageStops, he]
              push_neg
              exact ⟨hs, by simp, by omega⟩
            have hred : catalogLoop oracle (fuel + 1) page acc page
                = catalogLoop oracle fuel (page + 1) (acc ++ collectPage products) (page + 1) := by
              simp only [catalogLoop, ho, hs, if_true, he, Bool.false_eq_true,
                if_false, hl]
            rw [hred]
            obtain ⟨iub, imid, ilast⟩ := ih (page + 1) (acc ++ collectPage products)
            refine ⟨by omega, ?_, ?_⟩
            · intro k hk hk2
              rcases Nat.eq_or_lt_of_le hk with heq | hlt
              · exact heq ▸ hnp
              · exact imid k hlt hk2
            · rcases ilast with h | ⟨h1, h2⟩
              · exact Or.inl (by omega)
              · exact Or.inr ⟨by omega, h2⟩
      · have hp : pageStops (oracle page) := by rw [ho]; exact Or.inl hs
        simp only [catalogLoop, ho, hs, if_false]
        exact ⟨by omega, fun k hk hk2 => absurd hk2 (by omega),
          Or.inr ⟨by omega, by simpa using hp⟩⟩

/-- Concrete body type for closed instances: a body is the list of parts
the extractor finds, or none when extraction raises. -/
def demoExtract : Option (List (List Char)) → Except Unit (List (List Char))
  | some parts => Except.ok parts
  | none => Except.error ()

/-- A concrete product descriptor. -/
def demoItemA : ItemDescriptor :=
  { mp_code := "A1".data, url := "https://x".data,
    title := "Red SEQUIN Gown".data, brand := "Maison".data }

/-- A second concrete product descriptor. -/
def demoItemB : ItemDescriptor :=
  { mp_code := "B2".data, url := "https://y".data,
    title := "Plain Cotton Dress".data, brand := "Maison".data }

/-- Oracle whose every attempt succeeds with an extractable body. -/
def demoOracleOk : ItemDescriptor → Nat → AttemptOutcome (Option (List (List Char))) :=
  fun _ _ => .response 200 (some [])

/-- Oracle that always fails item A1 at fetch level and succeeds for the
other items. -/
def demoOracleMixed : ItemDescriptor → Nat → AttemptOutcome (Option (List (List Char))) :=
  fun item _ =>
    if item.mp_code = "A1".data then .response 500 none else .response 200 (some [])

/-- Oracle returning status 500 on attempts 0 and 1 and status 200 with an
extractable body on attempt 2. -/
def demoOracle500 : Nat → AttemptOutcome (Option (List (List Char)))
  | 0 => .response 500 none
  | 1 => .response 500 none
  | _ => .response 200 (some ["beaded bodice".data])

/-- Oracle whose first attempt fetches a body whose extraction raises and
whose later attempts fetch an extractable body. -/
def demoOracleBadGood : Nat → AttemptOutcome (Option (List (List Char)))
  | 0 => .response 200 none
  | _ => .response 200 (some ["sequin detail".data])

/-- n raw catalog records with non-empty product ids. -/
def rawProductsOf (n : Nat) : List RawProduct :=
  (List.range n).map (fun _ =>
    { productId := ['p'], webURL := "https://x".data, productname := [], brandname := [] })

/-- Catalog oracle serving pages of sizes 24, 24 and 10. -/
def threePageOracle : Nat → PageOutcome
  | 0 => .response 200 (rawProductsOf 24)
  | 1 => .response 200 (rawProductsOf 24)
  | 2 => .response 200 (rawProductsOf 10)
  | _ => .transportError

/-- Catalog oracle serving a full successful page of 24 records for every
page index. -/
def fullPagesOracle : Nat → PageOutcome := fun _ => .response 200 (rawProductsOf 24)

/-- C1: the keyword filter returns exactly the mp_codes of the corpus
entries whose searchable text contains at least one of the lowercased
keywords of the group as a substring, in corpus traversal order, one
occurrence per matching entry no matter how many keywords match; on the
corpus [A: red sequin gown, B: plain cotton dress] with keywords
[sequin, beaded] it returns [A]. -/
theorem c1_keyword_filter_spec :
    (∀ (corpus : List HarvestResult) (kws : List (List Char)),
       filter_by_keywords corpus kws
         = (corpus.filter (groupMatches kws)).map (fun r => r.mp_code))
    ∧ filter_by_keywords
        [{ mp_code := "A".data, searchable_text := "red sequin gown".data,
           title := [], brand := [] },
         { mp_code := "B".data, searchable_text := "plain cotton dress".data,
           title := [], brand := [] }]
        ["sequin".data, "beaded".data] = ["A".data] := by
  exact ⟨fun corpus kws => filter_by_keywords_eq corpus kws, by decide⟩

/-- C7: keyword matching is case-insensitive in both keyword and text
casing: a group containing the keyword Sequin matches a harvested result
whose raw joined page text contains sequin or SEQUIN, and the id of that
result appears in the filter output. -/
theorem c7_case_insensitive (item : ItemDescriptor) (parts : List (List Char))
    (c1 c2 : List HarvestResult) (kws1 kws2 : List (List Char))
    (h : "sequin".data <:+: joinParts (item.title :: item.brand :: parts)
       ∨ "SEQUIN".data <:+: joinParts (item.title :: item.brand :: parts)) :
    item.mp_code ∈ filter_by_keywords (c1 ++ mkHarvestResult item parts :: c2)
        (kws1 ++ "Sequin".data :: kws2) := by
  have hsub : "sequin".data <:+: (mkHarvestResult item parts).searchable_text := by
    rcases h with h | h
    · have hmap := mapToLower_mono h
      have e : toLowerText "sequin".data = "sequin".data := by decide
      rw [e] at hmap
      exact hmap
    · have hmap := mapToLower_mono h
      have e : toLowerText "SEQUIN".data = "sequin".data := by decide
      rw [e] at hmap
      exact hmap
  have hmatch : groupMatches (kws1 ++ "Sequin".data :: kws2)
      (mkHarvestResult item parts) = true := by
    simp only [groupMatches, List.map_append, List.map_cons, List.any_append,
      List.any_cons, Bool.or_eq_true]
    refine Or.inr (Or.inl ?_)
    have e2 : toLowerText "Sequin".data = "sequin".data := by decide
    rw [e2]
    exact decide_eq_true hsub
  rw [filter_by_keywords_eq]
  refine List.mem_map.mpr ⟨mkHarvestResult item parts, ?_, rfl⟩
  refine List.mem_filter.mpr ⟨?_, hmatch⟩
  simp

/-- C7 witness at a concrete result whose raw text contains SEQUIN in
upper case. -/
theorem c7_case_insensitive_witness :
    ("sequin".data <:+: joinParts (demoItemA.title :: demoItemA.brand :: [])
      ∨ "SEQUIN".data <:+: joinParts (demoItemA.title :: demoItemA.brand :: []))
    ∧ demoItemA.mp_code ∈ filter_by_keywords
        ([] ++ mkHarvestResult demoItemA [] :: []) ([] ++ "Sequin".data :: []) := by
  refine ⟨Or.inr (by decide), ?_⟩
  exact c7_case_insensitive demoItemA [] [] [] [] [] (Or.inr (by decide))

/-- C8: for a fixed corpus and group the keyword filter is deterministic,
and idempotent in the sense that restricting the corpus to its matching
entries and filtering again yields the same id sequence; as a pure
function of its arguments it leaves the corpus unchanged. -/
theorem c8_keyword_filter_pure :
    (∀ (corpus : List HarvestResult) (kws : List (List Char)),
       filter_by_keywords corpus kws = filter_by_keywords corpus kws)
    ∧ (∀ (corpus : List HarvestResult) (kws : List (List Char)),
       filter_by_keywords (corpus.filter (groupMatches kws)) kws
         = filter_by_keywords corpus kws) := by
  refine ⟨fun _ _ => rfl, fun corpus kws => ?_⟩
  rw [filter_by_keywords_eq, filter_by_keywords_eq, List.filter_filter]
  simp only [Bool.and_self]

/-- C9: the harvested corpus preserves the original listing order: the id
sequence of the corpus is an order-preserving selection (a sublist) of the
id sequence of the input products, for every oracle, because the
aggregation step collects the gathered task results in task submission
order. -/
theorem c9_order_preserved {Body : Type}
    (extract : Body → Except Unit (List (List Char)))
    (oracle : ItemDescriptor → Nat → AttemptOutcome Body)
    (products : List ItemDescriptor) :
    ((scrape_products_batch extract oracle products).map (fun r => r.mp_code)).Sublist
      (products.map (fun p => p.mp_code)) :=
  batch_map_sublist extract oracle products

/-- C2: over any run of the batch harvest on items with pairwise-distinct
ids, the corpus is no longer than the input, every harvested id is the id
of some input item, and no id occurs twice in the corpus. -/
theorem c2_harvest_invariants {Body : Type}
    (extract : Body → Except Unit (List (List Char)))
    (oracle : ItemDescriptor → Nat → AttemptOutcome Body)
    (items : List ItemDescriptor)
    (hnodup : (items.map (fun p => p.mp_code)).Nodup) :
    (scrape_products_batch extract oracle items).length ≤ items.length
    ∧ (∀ r ∈ scrape_products_batch extract oracle items,
        ∃ it ∈ items, r.mp_code = it.mp_code)
    ∧ ((scrape_products_batch extract oracle items).map (fun r => r.mp_code)).Nodup := by
  refine ⟨?_, ?_, ?_⟩
  · have h1 := List.length_filterMap_le id
      (items.map (fun p => scrape_single_product extract p (oracle p)))
    simpa [scrape_products_batch] using h1
  · intro r hr
    simp only [scrape_products_batch, List.mem_filterMap, List.mem_map, id] at hr
    obtain ⟨o, ⟨p, hp, hpo⟩, ho⟩ := hr
    exact ⟨p, hp, scrapeResultLoop_some_id (hpo.trans ho)⟩
  · exact (batch_map_sublist extract oracle items).nodup hnodup

/-- C2 witness on a concrete two-item harvest. -/
theorem c2_harvest_invariants_witness :
    ([demoItemA, demoItemB].map (fun p => p.mp_code)).Nodup
    ∧ (scrape_products_batch demoExtract demoOracleOk [demoItemA, demoItemB]).length
        ≤ ([demoItemA, demoItemB] : List ItemDescriptor).length :=
  ⟨by decide,
   (c2_harvest_invariants demoExtract demoOracleOk [demoItemA, demoItemB] (by decide)).1⟩

/-- C3: an item whose fetch fails on all three attempts yields no
HarvestResult, drops out of the batch without affecting the other items
(the batch never aborts), is absent from the corpus id sequence, and its
id is excluded from every keyword-filter output. -/
theorem c3_failed_item_excluded {Body : Type}
    (extract : Body → Except Unit (List (List Char)))
    (oracle : ItemDescriptor → Nat → AttemptOutcome Body)
    (l1 l2 : List ItemDescriptor) (x : ItemDescriptor) (kws : List (List Char))
    (hf0 : fetchFailed (oracle x 0) = true)
    (hf1 : fetchFailed (oracle x 1) = true)
    (hf2 : fetchFailed (oracle x 2) = true)
    (hid : x.mp_code ∉ (l1 ++ l2).map (fun p => p.mp_code)) :
    scrape_single_product extract x (oracle x) = none
    ∧ scrape_products_batch extract oracle (l1 ++ x :: l2)
        = scrape_products_batch extract oracle (l1 ++ l2)
    ∧ x.mp_code ∉ (scrape_products_batch extract oracle (l1 ++ x :: l2)).map
        (fun r => r.mp_code)
    ∧ x.mp_code ∉ filter_by_keywords
        (scrape_products_batch extract oracle (l1 ++ x :: l2)) kws := by
  have hnone : scrape_single_product extract x (oracle x) = none :=
    scrapeResultLoop_none (classify_retry_of_fetchFailed hf0)
      (classify_retry_of_fetchFailed hf1) (classify_retry_of_fetchFailed hf2)
  have hbatch : scrape_products_batch extract oracle (l1 ++ x :: l2)
      = scrape_products_batch extract oracle (l1 ++ l2) := by
    simp only [scrape_products_batch, List.map_append, List.map_cons,
      List.filterMap_append, List.filterMap_cons, hnone]
    rfl
  have hmem : x.mp_code ∉ (scrape_products_batch extract oracle (l1 ++ x :: l2)).map
      (fun r => r.mp_code) := by
    rw [hbatch]
    intro hx
    exact hid ((batch_map_sublist extract oracle (l1 ++ l2)).subset hx)
  refine ⟨hnone, hbatch, hmem, ?_⟩
  rw [filter_by_keywords_eq]
  intro hx
  have hsub2 : (((scrape_products_batch extract oracle (l1 ++ x :: l2)).filter
        (groupMatches kws)).map (fun r => r.mp_code)).Sublist
      ((scrape_products_batch extract oracle (l1 ++ x :: l2)).map (fun r => r.mp_code)) :=
    (List.filter_sublist _).map _
  exact hmem (hsub2.subset hx)

/-- C3 witness: a concrete batch where item A1 fails all three fetch
attempts. -/
theorem c3_failed_item_excluded_witness :
    fetchFailed (demoOracleMixed demoItemA 0) = true
    ∧ scrape_single_product demoExtract demoItemA (demoOracleMixed demoItemA) = none :=
  ⟨by decide,
   (c3_failed_item_excluded demoExtract demoOracleMixed [] [demoItemB] demoItemA
     ["gown".data] (by decide) (by decide) (by decide) (by decide)).1⟩

/-- C4: the retry loop sleeps a linear backoff of 200 ms times the attempt
index before each attempt and retries while attempts remain, on a
non-success status as well as on a transport error, producing the
HarvestResult from the first successful attempt: a run whose fetch returns
status 500 on attempts 0 and 1 and status 200 on attempt 2 emits the
result built from the content of attempt 2 with sleep trace 300 (initial
delay), 0, 200, 400 ms, and a run whose fetch raises on attempt 0 and
succeeds on attempt 1 emits the result of attempt 1 with sleep trace 300,
0, 1000 (retry pause), 200 ms. -/
theorem c4_linear_backoff_retry :
    (∀ {Body : Type} (extract : Body → Except Unit (List (List Char)))
       (item : ItemDescriptor) (oracle : Nat → AttemptOutcome Body)
       (b0 b1 b2 : Body) (parts : List (List Char)),
       oracle 0 = .response 500 b0 → oracle 1 = .response 500 b1 →
       oracle 2 = .response 200 b2 → extract b2 = .ok parts →
       scrape_single_product extract item oracle = some (mkHarvestResult item parts)
       ∧ scrape_single_sleeps extract item oracle = [300, 0, 200, 400])
    ∧ (∀ {Body : Type} (extract : Body → Except Unit (List (List Char)))
       (item : ItemDescriptor) (oracle : Nat → AttemptOutcome Body)
       (b : Body) (parts : List (List Char)),
       oracle 0 = .transportError → oracle 1 = .response 200 b →
       extract b = .ok parts →
       scrape_single_product extract item oracle = some (mkHarvestResult item parts)
       ∧ scrape_single_sleeps extract item oracle = [300, 0, 1000, 200]) := by
  constructor
  · intro Body extract item oracle b0 b1 b2 parts h0 h1 h2 hx
    have hc0 : classifyAttempt extract item (oracle 0) = .retryNoPause := by
      rw [h0]; simp [classifyAttempt]
    have hc1 : classifyAttempt extract item (oracle 1) = .retryNoPause := by
      rw [h1]; simp [classifyAttempt]
    have hc2 : classifyAttempt extract item (oracle 2)
        = .produced (mkHarvestResult item parts) := by
      rw [h2]; simp [classifyAttempt, hx]
    constructor
    · simp [scrape_single_product, scrapeResultLoop, hc0, hc1, hc2]
    · simp [scrape_single_sleeps, scrapeSleepsLoop, hc0, hc1, pauseOf]
  · intro Body extract item oracle b parts h0 h1 hx
    have hc0 : classifyAttempt extract item (oracle 0) = .retryWithPause := by
      rw [h0]; rfl
    have hc1 : classifyAttempt extract item (oracle 1)
        = .produced (mkHarvestResult item parts) := by
      rw [h1]; simp [classifyAttempt, hx]
    constructor
    · simp [scrape_single_product, scrapeResultLoop, hc0, hc1]
    · simp [scrape_single_sleeps, scrapeSleepsLoop, hc0, hc1, pauseOf]

/-- C4 witness on a concrete oracle answering 500, 500 then 200. -/
theorem c4_linear_backoff_retry_witness :
    demoOracle500 0 = .response 500 none
    ∧ scrape_single_sleeps demoExtract demoItemA demoOracle500 = [300, 0, 200, 400] :=
  ⟨rfl, (c4_linear_backoff_retry.1 demoExtract demoItemA demoOracle500
    none none (some ["beaded bodice".data]) ["beaded bodice".data] rfl rfl rfl rfl).2⟩

/-- C5 counterexample: with a fetch whose attempt 0 returns status 200 but
a body whose extraction raises, and whose attempt 1 returns an extractable
body, the harvester performs a further fetch attempt (visible as the 1000
ms retry pause followed by the 200 ms backoff of attempt 1) and emits a
HarvestResult, so an extraction failure is neither terminal for the item
nor unretried. -/
theorem c5_extraction_retried_counterexample :
    (scrape_single_product demoExtract demoItemA demoOracleBadGood).isSome = true
    ∧ scrape_single_sleeps demoExtract demoItemA demoOracleBadGood
        = [300, 0, 1000, 200] := by
  constructor
  · decide
  · decide

/-- C5 amended: an extraction failure on a successfully fetched response is
treated like a raised request: while attempts remain the item is retried
with a fresh fetch after a 1000 ms pause, and the item contributes no
HarvestResult only when every one of the three attempts fails. -/
theorem c5_extraction_retry_amended :
    (∀ {Body : Type} (extract : Body → Except Unit (List (List Char)))
       (item : ItemDescriptor) (oracle : Nat → AttemptOutcome Body)
       (b0 b1 : Body) (parts : List (List Char)),
       oracle 0 = .response 200 b0 → extract b0 = .error () →
       oracle 1 = .response 200 b1 → extract b1 = .ok parts →
       scrape_single_product extract item oracle = some (mkHarvestResult item parts)
       ∧ scrape_single_sleeps extract item oracle = [300, 0, 1000, 200])
    ∧ (∀ {Body : Type} (extract : Body → Except Unit (List (List Char)))
       (item : ItemDescriptor) (oracle : Nat → AttemptOutcome Body)
       (b0 b1 b2 : Body),
       oracle 0 = .response 200 b0 → extract b0 = .error () →
       oracle 1 = .response 200 b1 → extract b1 = .error () →
       oracle 2 = .response 200 b2 → extract b2 = .error () →
       scrape_single_product extract item oracle = none) := by
  constructor
  · intro Body extract item oracle b0 b1 parts h0 hx0 h1 hx1
    have hc0 : classifyAttempt extract item (oracle 0) = .retryWithPause := by
      rw [h0]; simp [classifyAttempt, hx0]
    have hc1 : classifyAttempt extract item (oracle 1)
        = .produced (mkHarvestResult item parts) := by
      rw [h1]; simp [classifyAttempt, hx1]
    constructor
    · simp [scrape_single_product, scrapeResultLoop, hc0, hc1]
    · simp [scrape_single_sleeps, scrapeSleepsLoop, hc0, hc1, pauseOf]
  · intro Body extract item oracle b0 b1 b2 h0 hx0 h1 hx1 h2 hx2
    have hc0 : classifyAttempt extract item (oracle 0) = .retryWithPause := by
      rw [h0]; simp [classifyAttempt, hx0]
    have hc1 : classifyAttempt extract item (oracle 1) = .retryWithPause := by
      rw [h1]; simp [classifyAttempt, hx1]
    have hc2 : classifyAttempt extract item (oracle 2) = .retryWithPause := by
      rw [h2]; simp [classifyAttempt, hx2]
    exact scrapeResultLoop_none (by rw [hc0]; rfl) (by rw [hc1]; rfl) (by rw [hc2]; rfl)

/-- C5 amended witness on the concrete bad-then-good oracle. -/
theorem c5_extraction_retry_amended_witness :
    demoOracleBadGood 0 = .response 200 none
    ∧ scrape_single_product demoExtract demoItemA demoOracleBadGood
        = some (mkHarvestResult demoItemA ["sequin detail".data]) :=
  ⟨rfl, (c5_extraction_retry_amended.1 demoExtract demoItemA demoOracleBadGood
    none (some ["sequin detail".data]) ["sequin detail".data] rfl rfl rfl rfl).1⟩

set_option maxRecDepth 20000 in
/-- C6 counterexample: against a catalog answering every page with a full
successful page of 24 records, discovery stops after exactly 500 page
requests although the last requested page, page 499, satisfied none of the
stop conditions named by the claim: the claimed conditions are not the
only way discovery stops. -/
theorem c6_pagination_counterexample :
    (scrape_all_products_pages fullPagesOracle).snd = 500
    ∧ ¬ pageStops (fullPagesOracle 499) := by
  constructor
  · decide
  · decide

/-- C6 amended: discovery pages from 0 incrementing by 1 and stops when a
page request fails or returns a non-success status, a page yields zero
records, a page yields fewer than 24 records, or the hard ceiling of 500
page requests is reached, keeping everything collected so far: for every
page oracle at most 500 requests are made, no page strictly before the
last requested one satisfied a stop condition, and either the ceiling was
reached or the last requested page satisfied a stop condition; for pages
of sizes 24, 24, 10 discovery makes exactly 3 page requests and collects
58 items. -/
theorem c6_pagination_amended :
    (∀ oracle : Nat → PageOutcome,
       (scrape_all_products_pages oracle).snd ≤ 500
       ∧ (∀ k, k + 1 < (scrape_all_products_pages oracle).snd → ¬ pageStops (oracle k))
       ∧ ((scrape_all_products_pages oracle).snd = 500
          ∨ (0 < (scrape_all_products_pages oracle).snd
             ∧ pageStops (oracle ((scrape_all_products_pages oracle).snd - 1)))))
    ∧ (scrape_all_products_pages threePageOracle).snd = 3
    ∧ (scrape_all_products_pages threePageOracle).fst.length = 58 := by
  refine ⟨?_, by decide, by decide⟩
  intro oracle
  obtain ⟨h1, h2, h3⟩ := catalogLoop_spec oracle 500 0 []
  refine ⟨by simpa using h1, fun k hk => h2 k (Nat.zero_le k) hk, ?_⟩
  rcases h3 with h | ⟨ha, hb⟩
  · exact Or.inl (by simpa using h)
  · exact Or.inr ⟨ha, hb⟩

/-- C6 amended witness: on the three-page catalog, page 0 satisfied no
stop condition while discovery went on. -/
theorem c6_pagination_amended_witness : ¬ pageStops (threePageOracle 0) :=
  (c6_pagination_amended.1 threePageOracle).2.1 0 (by decide)

